import Mathlib

/-
  Verification of the SharePoint promotion-banner synchronization engine.

  The development shallowly embeds the code of
  src/utils/sp-graph-api-util.js and src/utils/spo-file-update.js:
  JavaScript values become the inductive type JsValue, the module-level
  mutable variables (loadedWorkSheetId, loadedTableId, loadedHeaderRow,
  loadedStore.sheetId, loadedStoreCode) become the Session structure, the
  remote Graph-API table becomes the RemoteEnv structure, and every async
  function becomes a state-passing function
  Session → RemoteEnv → Except JsErr α × Session × RemoteEnv × List Request
  that also records the remote requests it issues.  Sessions are taken
  after setAccessToken / setFilePathToRead have run, since every claim
  concerns the table operations, not credential plumbing.
-/

namespace SpSync

/-- Model of the JavaScript values that flow through the utility:
strings, (integer) numbers, NaN, booleans, null and undefined. -/
inductive JsValue where
  | vStr (s : String)
  | vNum (n : Int)
  | vNaN
  | vBool (b : Bool)
  | vNull
  | vUndefined
deriving DecidableEq

/-- The whitespace characters removed by String.prototype.trim. -/
def isJsWhitespace (c : Char) : Bool :=
  c = ' ' || c = '\t' || c = '\n' || c = '\r' || c = '\x0b' || c = '\x0c'

/-- String.prototype.trim. -/
def jsTrim (s : String) : String :=
  String.mk (((s.data.dropWhile isJsWhitespace).reverse.dropWhile isJsWhitespace).reverse)

/-- ASCII lower-casing of one character. -/
def lowerChar (c : Char) : Char :=
  if 'A' ≤ c && c ≤ 'Z' then Char.ofNat (c.toNat + 32) else c

/-- String.prototype.toLowerCase (ASCII fragment). -/
def jsToLowerCase (s : String) : String :=
  String.mk (s.data.map lowerChar)

/-- Decimal digit test. -/
def isDecDigit (c : Char) : Bool := '0' ≤ c && c ≤ '9'

/-- Hexadecimal digit value, if any. -/
def hexDigitVal (c : Char) : Option Nat :=
  if '0' ≤ c && c ≤ '9' then some (c.toNat - 48)
  else if 'a' ≤ c && c ≤ 'f' then some (c.toNat - 87)
  else if 'A' ≤ c && c ≤ 'F' then some (c.toNat - 55)
  else none

/-- Value of the maximal leading run of decimal digits. -/
def leadDecVal : List Char → Nat → Nat
  | [], acc => acc
  | c :: cs, acc => if isDecDigit c then leadDecVal cs (acc * 10 + (c.toNat - 48)) else acc

/-- Value of the maximal leading run of hexadecimal digits. -/
def leadHexVal : List Char → Nat → Nat
  | [], acc => acc
  | c :: cs, acc =>
    match hexDigitVal c with
    | some d => leadHexVal cs (acc * 16 + d)
    | none => acc

/-- Does the character list start with a decimal digit? -/
def headIsDec : List Char → Bool
  | [] => false
  | c :: _ => isDecDigit c

/-- Does the character list start with a hexadecimal digit? -/
def headIsHex : List Char → Bool
  | [] => false
  | c :: _ => (hexDigitVal c).isSome

/-- Magnitude parsed by parseInt after sign handling: an optional 0x/0X
prefix selects base 16, otherwise base 10; none models NaN. -/
def parseUnsignedJS (l : List Char) : Option Nat :=
  match l with
  | '0' :: c :: rest =>
    if c = 'x' || c = 'X' then
      if headIsHex rest then some (leadHexVal rest 0) else none
    else
      some (leadDecVal l 0)
  | _ => if headIsDec l then some (leadDecVal l 0) else none

/-- parseInt on a string: skip whitespace, optional sign, leading digits;
none models NaN. -/
def parseIntString (s : String) : Option Int :=
  let l := s.data.dropWhile isJsWhitespace
  match l with
  | '-' :: rest => (parseUnsignedJS rest).map (fun n => -(n : Int))
  | '+' :: rest => (parseUnsignedJS rest).map (fun n => (n : Int))
  | _ => (parseUnsignedJS l).map (fun n => (n : Int))

/-- parseInt on a JavaScript value (the argument is coerced to a string
first; booleans, null, undefined and NaN all coerce to non-numeric
strings).  none models NaN. -/
def parseIntJS : JsValue → Option Int
  | .vNum n => some n
  | .vStr s => parseIntString s
  | _ => none

/-- The strict equality parseInt(a) === parseInt(b) used by the row
locator; NaN === NaN is false, so two non-numeric values never match. -/
def parseIntEq (a b : JsValue) : Bool :=
  match parseIntJS a, parseIntJS b with
  | some x, some y => x = y
  | _, _ => false

/-- parseInt(x) as a JavaScript value again (NaN when unparsable), as
passed to findRowIndexByID by createOrUpdateRows and deactivateRow. -/
def jsParseIntVal (v : JsValue) : JsValue :=
  match parseIntJS v with
  | some n => .vNum n
  | none => .vNaN

/-- parseBoolToInt of sp-graph-api-util.js: strings are trimmed and
lower-cased, then the value is compared by strict equality against the
six truthy switch cases. -/
def parseBoolToInt (value : JsValue) : Int :=
  let value2 :=
    match value with
    | .vStr s => JsValue.vStr (jsToLowerCase (jsTrim s))
    | v => v
  if value2 = .vBool true ∨ value2 = .vStr "true" ∨ value2 = .vNum 1 ∨
     value2 = .vStr "1" ∨ value2 = .vStr "on" ∨ value2 = .vStr "yes"
  then 1 else 0

/-- Result of JSON.parse, as far as the record mapper inspects it: either
a JSON object (property access looks keys up) or any other JSON value
(property access yields undefined). -/
inductive JsonVal where
  | jObj (fields : List (String × JsValue))
  | jAtom (v : JsValue)
deriving DecidableEq

/-- JS object property read obj[k] on an object modelled as an
insertion-ordered association list; none models undefined. -/
def assocGet {β : Type} : List (String × β) → String → Option β
  | [], _ => none
  | (k0, v0) :: rest, k => if k0 = k then some v0 else assocGet rest k

/-- Property access jsonValue[key]; none models undefined. -/
def jsonGet : JsonVal → String → Option JsValue
  | .jObj fields, k => assocGet fields k
  | .jAtom _, _ => none

/-- A record (plain JS object): association list from field names to
values.  Keys are unique in any object produced by the runtime. -/
def recordGet (elem : List (String × JsValue)) (k : String) : JsValue :=
  (assocGet elem k).getD .vUndefined

/-- getSheetColumnsToUpdate of sp-graph-api-util.js: the 14 recognized
field names in declared order. -/
def getSheetColumnsToUpdate : List String :=
  [ "schedule_id",
    "rule_id",
    "rule_name",
    "coupon_type",
    "description_en",
    "description_ar",
    "short_terms_and_conditions_en",
    "short_terms_and_conditions_ar",
    "url_key",
    "channel_web",
    "channel_app",
    "start_date",
    "end_date",
    "status" ]

/-- The four localized text fields listed inline in prepareDataForUpdate. -/
def localizedTextFields : List String :=
  [ "description_en",
    "description_ar",
    "short_terms_and_conditions_en",
    "short_terms_and_conditions_ar" ]

/-- Per-field value transformation of prepareDataForUpdate: status goes
through parseBoolToInt; the four localized text fields are JSON-parsed
(jsonParse models the ambient JSON.parse, returning none when it throws)
and, when the session store code is truthy and a key of the parsed
object, replaced by the locale-specific value; parse failure or a
missing key keeps the raw value (logged only). -/
def transformValue (jsonParse : JsValue → Option JsonVal)
    (storeCode : Option String) (key : String) (value : JsValue) : JsValue :=
  if key = "status" then .vNum (parseBoolToInt value)
  else if key ∈ localizedTextFields then
    match jsonParse value with
    | none => value
    | some j =>
      match storeCode with
      | none => value
      | some sc =>
        if sc = "" then value
        else
          match jsonGet j sc with
          | none => value
          | some lv => lv
  else value

/-- The forEach-and-push loop of prepareDataForUpdate over the recognized
field list: fields whose value is undefined (absent) are skipped, all
others contribute their transformed value in declared order. -/
def prepareDataGo (jsonParse : JsValue → Option JsonVal)
    (storeCode : Option String) (elem : List (String × JsValue)) :
    List String → List JsValue
  | [] => []
  | k :: ks =>
    let v := recordGet elem k
    if v = .vUndefined then prepareDataGo jsonParse storeCode elem ks
    else transformValue jsonParse storeCode k v :: prepareDataGo jsonParse storeCode elem ks

/-- prepareDataForUpdate of sp-graph-api-util.js. -/
def prepareDataForUpdate (jsonParse : JsValue → Option JsonVal)
    (storeCode : Option String) (elem : List (String × JsValue)) : List JsValue :=
  if 0 < elem.length then prepareDataGo jsonParse storeCode elem getSheetColumnsToUpdate
  else []

/-- One worksheet as returned by the worksheets listing
(?$select=id,visibility). -/
structure Worksheet where
  id : String
  visibility : String
deriving DecidableEq

/-- The remote table resource: the worksheets of the workbook, the table
ids of the first worksheet, and the header names and data rows of the
first table. -/
structure RemoteEnv where
  worksheets : List Worksheet
  tables : List String
  header : List String
  rows : List (List JsValue)
deriving DecidableEq

/-- The module-level mutable state of sp-graph-api-util.js (one session):
loadedWorkSheetId, loadedTableId, loadedHeaderRow (a plain object,
modelled as an insertion-ordered association list), loadedStore.sheetId
and loadedStoreCode. -/
structure Session where
  loadedWorkSheetId : Option String
  loadedTableId : Option String
  loadedHeaderRow : List (String × Int)
  loadedStoreSheetId : Option String
  loadedStoreCode : Option String
deriving DecidableEq

/-- Failure outcomes: an Error thrown with a message, a TypeError from
dereferencing null/undefined, or a rejected remote call. -/
inductive JsErr where
  | thrown (msg : String)
  | typeError
  | axiosError
deriving DecidableEq

/-- The remote requests a run can issue, for counting network calls. -/
inductive Request where
  | reqWorksheets
  | reqTables
  | reqColumns
  | reqColumnValues (idx : Option Int)
  | reqRowGet (idx : Int)
  | reqRowPost (vals : List JsValue)
  | reqRowPatch (idx : Int) (vals : List JsValue)
deriving DecidableEq

/-- An async utility function: given the session state and the remote
table it produces a result or error, the new session, the new remote
state and the list of requests issued, in order. -/
def M (α : Type) : Type :=
  Session → RemoteEnv → Except JsErr α × Session × RemoteEnv × List Request

/-- Truthiness of a nullable string (JS: null and the empty string are
falsy). -/
def truthyOptStr : Option String → Bool
  | some s => s != ""
  | none => false

/-- The worksheets visible-filtered, as in getFirstActiveWorksheetId. -/
def visibleWorksheets (e : RemoteEnv) : List Worksheet :=
  e.worksheets.filter (fun w => w.visibility == "Visible")

/-- getFirstActiveWorksheetId: memoized id if truthy, else the
loadedStore.sheetId override if present and nonempty, else list the
worksheets remotely, fail when zero were returned, filter to visible and
take the first (JS reads worksheets[0].id, a TypeError when the visible
list is empty). -/
def getFirstActiveWorksheetId : M String := fun s e =>
  if truthyOptStr s.loadedWorkSheetId then
    (.ok (s.loadedWorkSheetId.getD ""), s, e, [])
  else if truthyOptStr s.loadedStoreSheetId then
    let sid := s.loadedStoreSheetId.getD ""
    (.ok sid, { s with loadedWorkSheetId := some sid }, e, [])
  else
    if e.worksheets.length = 0 then
      (.error (.thrown "No worksheet found in the excel sheet or api call failed. Please check the excel sheet and try again."),
       s, e, [.reqWorksheets])
    else
      match (visibleWorksheets e).head? with
      | none => (.error .typeError, s, e, [.reqWorksheets])
      | some w0 => (.ok w0.id, { s with loadedWorkSheetId := some w0.id }, e, [.reqWorksheets])

/-- getFirstTable: memoized id if truthy, else resolve the worksheet,
list the tables and take the first, failing when none exist. -/
def getFirstTable : M String := fun s e =>
  if truthyOptStr s.loadedTableId then
    (.ok (s.loadedTableId.getD ""), s, e, [])
  else
    match getFirstActiveWorksheetId s e with
    | (.error err, s1, e1, t1) => (.error err, s1, e1, t1)
    | (.ok _, s1, e1, t1) =>
      match e1.tables with
      | [] =>
        (.error (.thrown "No table found in the excel sheet or api call failed. Please check the excel sheet and try again."),
         s1, e1, t1 ++ [.reqTables])
      | t0 :: _ =>
        (.ok t0, { s1 with loadedTableId := some t0 }, e1, t1 ++ [.reqTables])

/-- The memoization test of getHeaderRow: loadedHeaderRow.length > 0.
loadedHeaderRow is a plain object, so .length is a property lookup that
is undefined (falsy) unless a column is literally named length. -/
def memoLenPositive (m : List (String × Int)) : Bool :=
  match assocGet m "length" with
  | some i => 0 < i
  | none => false

/-- The columns listing with positional indexes, starting at start. -/
def enumPairsFrom (start : Nat) : List String → List (Nat × String)
  | [] => []
  | n :: ns => (start, n) :: enumPairsFrom (start + 1) ns

/-- JS object assignment m[k] = v: replace in place when the key exists,
append otherwise. -/
def objSet (m : List (String × Int)) (k : String) (v : Int) : List (String × Int) :=
  match m with
  | [] => [(k, v)]
  | (k0, v0) :: rest => if k0 = k then (k0, v) :: rest else (k0, v0) :: objSet rest k v

/-- The forEach loop of getHeaderRow: assign each nonempty column name
its index into the (module-level) header object. -/
def mergeHeader (m : List (String × Int)) : List (Nat × String) → List (String × Int)
  | [] => m
  | (i, n) :: rest =>
    if n = "" then mergeHeader m rest
    else mergeHeader (objSet m n (i : Int)) rest

/-- The header map obtained from a fresh session for remote table e. -/
def headerMap (e : RemoteEnv) : List (String × Int) :=
  mergeHeader [] (enumPairsFrom 0 e.header)

/-- getHeaderRow: return the memoized object when its length property is
positive, else resolve table and worksheet, list the columns remotely,
fail when zero columns were returned, and merge name-to-index pairs into
the module-level object. -/
def getHeaderRow : M (List (String × Int)) := fun s e =>
  if memoLenPositive s.loadedHeaderRow then
    (.ok s.loadedHeaderRow, s, e, [])
  else
    match getFirstTable s e with
    | (.error err, s1, e1, t1) => (.error err, s1, e1, t1)
    | (.ok _, s1, e1, t1) =>
      match getFirstActiveWorksheetId s1 e1 with
      | (.error err, s2, e2, t2) => (.error err, s2, e2, t1 ++ t2)
      | (.ok _, s2, e2, t2) =>
        match e2.header with
        | [] =>
          (.error (.thrown "No columns found in the excel sheet or api call failed. Please check the excel sheet and try again."),
           s2, e2, t1 ++ t2 ++ [.reqColumns])
        | _ :: _ =>
          let newMap := mergeHeader s2.loadedHeaderRow (enumPairsFrom 0 e2.header)
          (.ok newMap, { s2 with loadedHeaderRow := newMap }, e2, t1 ++ t2 ++ [.reqColumns])

/-- The JS expression loadedHeaderRow[headerName] || -1: any falsy index
(0 for a number, undefined for a missing key) falls back to -1. -/
def jsOrNegOne : Option Int → Int
  | some i => if i = 0 then -1 else i
  | none => -1

/-- findColumnIndexByHeader: look the name up in the resolved header map
with || -1 fallback. -/
def findColumnIndexByHeader (headerName : String) : M Int := fun s e =>
  match getHeaderRow s e with
  | (.error err, s1, e1, t1) => (.error err, s1, e1, t1)
  | (.ok hm, s1, e1, t1) => (.ok (jsOrNegOne (assocGet hm headerName)), s1, e1, t1)

/-- Array.prototype.findIndex position, before the -1 encoding. -/
def findIdxO : List α → (α → Bool) → Option Nat
  | [], _ => none
  | a :: as, p => if p a then some 0 else (findIdxO as p).map (· + 1)

/-- Array.prototype.findIndex: first matching position or -1. -/
def jsFindIndex (l : List α) (p : α → Bool) : Int :=
  match findIdxO l p with
  | some k => (k : Int)
  | none => -1

/-- The column-values response for column j of the table: the header cell
followed by one singleton cell array per data row. -/
def columnCells (e : RemoteEnv) (j : Nat) : List (List JsValue) :=
  [JsValue.vStr (e.header.getD j "")] :: e.rows.map (fun r => [r.getD j .vUndefined])

/-- Does row r of the table integer-match value v in column j?  The cell
of column j is compared through parseInt strict equality. -/
def rowMatches (j : Nat) (v : JsValue) (r : List JsValue) : Bool :=
  parseIntEq (r.getD j .vUndefined) v

/-- findRowIndexByID: resolve table, worksheet and header map, look the
column name up (the guard compares the lookup === -1, so a missing key,
being undefined, passes it), fetch that column's value list (the request
fails remotely when the index is undefined or out of range), shift the
header cell off and scan for the first cell whose parseInt strictly
equals parseInt of the key. -/
def findRowIndexByID (colName : String) (valueToMatch : JsValue) : M Int := fun s e =>
  match getFirstTable s e with
  | (.error err, s1, e1, t1) => (.error err, s1, e1, t1)
  | (.ok _, s1, e1, t1) =>
    match getFirstActiveWorksheetId s1 e1 with
    | (.error err, s2, e2, t2) => (.error err, s2, e2, t1 ++ t2)
    | (.ok _, s2, e2, t2) =>
      match getHeaderRow s2 e2 with
      | (.error err, s3, e3, t3) => (.error err, s3, e3, t1 ++ t2 ++ t3)
      | (.ok hm, s3, e3, t3) =>
        let columnIndex := assocGet hm colName
        if columnIndex = some (-1) then
          (.error (.thrown ("Column " ++ colName ++ " not found in the excel sheet")),
           s3, e3, t1 ++ t2 ++ t3)
        else
          let tr := t1 ++ t2 ++ t3 ++ [.reqColumnValues columnIndex]
          match columnIndex with
          | some j =>
            if 0 ≤ j ∧ j.toNat < e3.header.length then
              let colValues := (columnCells e3 j.toNat).drop 1
              let rowIndex :=
                jsFindIndex colValues (fun el => parseIntEq (el.getD 0 .vUndefined) valueToMatch)
              (.ok rowIndex, s3, e3, tr)
            else (.error .axiosError, s3, e3, tr)
          | none => (.error .axiosError, s3, e3, tr)

/-- getRowDataByIndex: indexes below 1 short-circuit to null without a
request; otherwise fetch the row at that position (0-based in the
rows collection). -/
def getRowDataByIndex (rowIndex : Int) : M (Option (List JsValue)) := fun s e =>
  if rowIndex < 1 then (.ok none, s, e, [])
  else
    match getFirstTable s e with
    | (.error err, s1, e1, t1) => (.error err, s1, e1, t1)
    | (.ok _, s1, e1, t1) =>
      match getFirstActiveWorksheetId s1 e1 with
      | (.error err, s2, e2, t2) => (.error err, s2, e2, t1 ++ t2)
      | (.ok _, s2, e2, t2) =>
        let tr := t1 ++ t2 ++ [.reqRowGet rowIndex]
        if rowIndex.toNat < e2.rows.length then
          (.ok (some (e2.rows.getD rowIndex.toNat [])), s2, e2, tr)
        else (.error .axiosError, s2, e2, tr)

/-- saveRowData: resolve worksheet and table, map the record into the
column vector, reject on a column-count mismatch before the row write,
then POST a new row (201) or PATCH the row at the given index (200). -/
def saveRowData (jsonParse : JsValue → Option JsonVal)
    (jsonData : List (String × JsValue)) (rowIndex : Option Int) : M Bool := fun s e =>
  match getFirstActiveWorksheetId s e with
  | (.error err, s1, e1, t1) => (.error err, s1, e1, t1)
  | (.ok _, s1, e1, t1) =>
    match getFirstTable s1 e1 with
    | (.error err, s2, e2, t2) => (.error err, s2, e2, t1 ++ t2)
    | (.ok _, s2, e2, t2) =>
      let postData := prepareDataForUpdate jsonParse s2.loadedStoreCode jsonData
      if getSheetColumnsToUpdate.length ≠ postData.length then
        (.error (.thrown "Number of columns mismatched in post data"), s2, e2, t1 ++ t2)
      else
        match rowIndex with
        | none =>
          (.ok true, s2, { e2 with rows := e2.rows ++ [postData] },
           t1 ++ t2 ++ [.reqRowPost postData])
        | some i =>
          if 0 ≤ i ∧ i.toNat < e2.rows.length then
            (.ok true, s2, { e2 with rows := e2.rows.set i.toNat postData },
             t1 ++ t2 ++ [.reqRowPatch i postData])
          else (.error .axiosError, s2, e2, t1 ++ t2 ++ [.reqRowPatch i postData])

/-- createOrUpdateRows: locate the row by parseInt(schedule_id); update
it when the index is nonnegative, else append a new row. -/
def createOrUpdateRows (jsonParse : JsValue → Option JsonVal)
    (jsonData : List (String × JsValue)) : M Bool := fun s e =>
  match findRowIndexByID "schedule_id" (jsParseIntVal (recordGet jsonData "schedule_id")) s e with
  | (.error err, s1, e1, t1) => (.error err, s1, e1, t1)
  | (.ok rowId, s1, e1, t1) =>
    match (if 0 ≤ rowId then saveRowData jsonParse jsonData (some rowId) s1 e1
           else saveRowData jsonParse jsonData none s1 e1) with
    | (r, s2, e2, t2) => (r, s2, e2, t1 ++ t2)

/-- JS array index assignment rowValues[i] = v as observed through JSON
serialization: a negative index becomes a non-index property the
serializer ignores, an index past the end pads the array with null. -/
def jsArraySet (l : List JsValue) (i : Int) (v : JsValue) : List JsValue :=
  if i < 0 then l
  else if i.toNat < l.length then l.set i.toNat v
  else l ++ List.replicate (i.toNat - l.length) .vNull ++ [v]

/-- deactivateRow: locate the row by schedule_id, throw when the index is
negative, fetch the row values, set the cell at
findColumnIndexByHeader(status) to 0 (a TypeError when the fetched row
values are null) and PATCH the whole row back. -/
def deactivateRow (scheduleId : JsValue) : M Bool := fun s e =>
  match findRowIndexByID "schedule_id" (jsParseIntVal scheduleId) s e with
  | (.error err, s1, e1, t1) => (.error err, s1, e1, t1)
  | (.ok rowId, s1, e1, t1) =>
    if rowId < 0 then
      (.error (.thrown "Invalid schedule id provided no entries found scheduleId"), s1, e1, t1)
    else
      match getRowDataByIndex rowId s1 e1 with
      | (.error err, s2, e2, t2) => (.error err, s2, e2, t1 ++ t2)
      | (.ok rowValues, s2, e2, t2) =>
        match getFirstActiveWorksheetId s2 e2 with
        | (.error err, s3, e3, t3) => (.error err, s3, e3, t1 ++ t2 ++ t3)
        | (.ok _, s3, e3, t3) =>
          match getFirstTable s3 e3 with
          | (.error err, s4, e4, t4) => (.error err, s4, e4, t1 ++ t2 ++ t3 ++ t4)
          | (.ok _, s4, e4, t4) =>
            match findColumnIndexByHeader "status" s4 e4 with
            | (.error err, s5, e5, t5) => (.error err, s5, e5, t1 ++ t2 ++ t3 ++ t4 ++ t5)
            | (.ok statusIdx, s5, e5, t5) =>
              let tall := t1 ++ t2 ++ t3 ++ t4 ++ t5
              match rowValues with
              | none => (.error .typeError, s5, e5, tall)
              | some vs =>
                let vs2 := jsArraySet vs statusIdx (.vNum 0)
                if 0 ≤ rowId ∧ rowId.toNat < e5.rows.length then
                  (.ok true, s5, { e5 with rows := e5.rows.set rowId.toNat vs2 },
                   tall ++ [.reqRowPatch rowId vs2])
                else (.error .axiosError, s5, e5, tall ++ [.reqRowPatch rowId vs2])

/-- A session at the start of one event, before any resolution; the store
code was set by getDirectoryPath from the store-code mapping. -/
def freshSession (storeCode : Option String) : Session :=
  ⟨none, none, [], none, storeCode⟩

/-- The session after worksheet and table resolution succeeded but before
the header map was fetched. -/
def wsTableSession (storeCode : Option String) (w t : String) : Session :=
  ⟨some w, some t, [], none, storeCode⟩

/-- The session after worksheet, table and header resolution succeeded. -/
def resolvedSession (storeCode : Option String) (w t : String)
    (hm : List (String × Int)) : Session :=
  ⟨some w, some t, hm, none, storeCode⟩

/-- Outcome of one PUT attempt in spo-file-update.js: success, a failure
whose error message contains "locked", or any other failure. -/
inductive UploadOutcome where
  | success
  | lockedError
  | otherError
deriving DecidableEq

/-- Observable result of the retry loop: how many attempts completed, the
timer was cleared, and the outcome of the final attempt. -/
structure RetryResult where
  attempts : Nat
  cleared : Bool
  lastOutcome : UploadOutcome
deriving DecidableEq

/-- The fixed interval of retryFileUpload, in milliseconds. -/
def delayInMiliSec : Nat := 500

/-- The fixed ceiling of retryFileUpload, in seconds. -/
def tryUptoSec : Nat := 30

/-- maxRetries = (tryUptoSec * 1000) / delayInMiliSec. -/
def maxRetries : Nat := (tryUptoSec * 1000) / delayInMiliSec

/-- One tick of the setInterval loop of retryFileUpload, with the attempt
outcomes given as a function of the attempt number: try the PUT, mark
retry only on a locked error, increment the count and clear the interval
when the count reaches maxRetries or the attempt need not be retried.
The fuel argument (maxRetries - count at every call) makes termination
structural; exhausting it would mean the timer was never cleared. -/
def retryTick (f : Nat → UploadOutcome) : Nat → Nat → RetryResult
  | k, 0 => ⟨k, false, .otherError⟩
  | k, fuel + 1 =>
    let outcome := f k
    if k + 1 = maxRetries ∨ outcome ≠ .lockedError then ⟨k + 1, true, outcome⟩
    else retryTick f (k + 1) fuel

/-- retryFileUpload of spo-file-update.js, each attempt completing within
its 500 ms tick. -/
def retryFileUpload (f : Nat → UploadOutcome) : RetryResult :=
  retryTick f 0 maxRetries

/-- Concrete table used by the evaluation theorems: one visible
worksheet, one table, columns schedule_id and status, and one data row
whose schedule_id is "42" (the first data row, position 0). -/
def envOneRow : RemoteEnv :=
  ⟨[⟨"ws1", "Visible"⟩], ["tbl1"], ["schedule_id", "status"], [[.vStr "42", .vNum 1]]⟩

/-- The recognized-field order as a table header, but with the first two
columns swapped: rule_id first, schedule_id second. -/
def envSwapped : RemoteEnv :=
  ⟨[⟨"ws1", "Visible"⟩], ["tbl1"],
   [ "rule_id", "schedule_id", "rule_name", "coupon_type", "description_en",
     "description_ar", "short_terms_and_conditions_en",
     "short_terms_and_conditions_ar", "url_key", "channel_web", "channel_app",
     "start_date", "end_date", "status" ], []⟩

/-- A table whose columns are the 14 recognized fields in declared order,
initially empty. -/
def envAligned : RemoteEnv :=
  ⟨[⟨"ws1", "Visible"⟩], ["tbl1"], getSheetColumnsToUpdate, []⟩

/-- A record with all 14 recognized fields defined and a numeric
schedule_id; rule_id is a non-numeric string. -/
def recFull : List (String × JsValue) :=
  [ ("schedule_id", .vStr "42"),
    ("rule_id", .vStr "abc"),
    ("rule_name", .vStr "rn"),
    ("coupon_type", .vStr "ct"),
    ("description_en", .vStr "de"),
    ("description_ar", .vStr "da"),
    ("short_terms_and_conditions_en", .vStr "te"),
    ("short_terms_and_conditions_ar", .vStr "ta"),
    ("url_key", .vStr "uk"),
    ("channel_web", .vStr "1"),
    ("channel_app", .vStr "0"),
    ("start_date", .vStr "2025-01-01"),
    ("end_date", .vStr "2025-02-01"),
    ("status", .vBool true) ]

/-- recFull with the status field removed: 13 of 14 recognized fields. -/
def recMissingStatus : List (String × JsValue) :=
  recFull.filter (fun kv => kv.1 != "status")

/-- A jsonParse stand-in under which no value parses as JSON. -/
def jpNone : JsValue → Option JsonVal := fun _ => none

instance {ε α : Type} [DecidableEq ε] [DecidableEq α] : DecidableEq (Except ε α) := fun x y =>
  match x, y with
  | .ok a, .ok b =>
    if h : a = b then isTrue (h ▸ rfl) else isFalse (fun hh => h (Except.ok.inj hh))
  | .error a, .error b =>
    if h : a = b then isTrue (h ▸ rfl) else isFalse (fun hh => h (Except.error.inj hh))
  | .ok _, .error _ => isFalse (fun hh => Except.noConfusion hh)
  | .error _, .ok _ => isFalse (fun hh => Except.noConfusion hh)

/-- Table with a single schedule_id column and the data cells of the
specification's row-lookup example. -/
def envLookupExample : RemoteEnv :=
  ⟨[⟨"ws1", "Visible"⟩], ["tbl1"], ["schedule_id"],
   [[.vStr "10"], [.vStr "42"], [.vStr "7"]]⟩

/-- Table whose status column sits at positional index 0. -/
def envStatusFirst : RemoteEnv :=
  ⟨[⟨"ws1", "Visible"⟩], ["tbl1"], ["status", "schedule_id"], [[.vNum 1, .vStr "42"]]⟩

/-- The multi-locale description value of the specification example,
already parsed: an object with keys US and AE. -/
def localeObjExample : JsonVal :=
  .jObj [("US", .vStr "Hello"), ("AE", .vStr "مرحبا")]

/-- A jsonParse stand-in that parses the marker value locmapDescription
to the example locale object and throws on everything else. -/
def jpExample : JsValue → Option JsonVal := fun v =>
  if v = .vStr "locmapDescription" then some localeObjExample else none

/-- A record whose description_en field carries the multi-locale value
and whose description_ar field carries a plain non-JSON string. -/
def recLocale : List (String × JsValue) :=
  [ ("schedule_id", .vStr "42"),
    ("description_en", .vStr "locmapDescription"),
    ("description_ar", .vStr "plain text") ]

theorem assocGet_objSet_self (m : List (String × Int)) (k : String) (v : Int) :
    assocGet (objSet m k v) k = some v := by
  induction m with
  | nil => simp [objSet, assocGet]
  | cons kv rest ih =>
    obtain ⟨k0, v0⟩ := kv
    by_cases h : k0 = k
    · simp [objSet, h, assocGet]
    · simp [objSet, h, assocGet, ih]

theorem assocGet_objSet_ne (m : List (String × Int)) (k k2 : String) (v : Int)
    (h : k2 ≠ k) : assocGet (objSet m k2 v) k = assocGet m k := by
  induction m with
  | nil => simp [objSet, assocGet, h]
  | cons kv rest ih =>
    obtain ⟨k0, v0⟩ := kv
    by_cases h0 : k0 = k2
    · subst h0
      simp [objSet, assocGet, h]
    · by_cases h1 : k0 = k
      · subst h1
        simp [objSet, Ne.symm h, assocGet]
      · simp [objSet, h0, assocGet, h1, ih]

theorem assocGet_mergeHeader_not_mem (ps : List (Nat × String)) :
    ∀ (m : List (String × Int)) (k : String),
      (∀ i n, (i, n) ∈ ps → n ≠ k) → assocGet (mergeHeader m ps) k = assocGet m k := by
  induction ps with
  | nil => intro m k _; rfl
  | cons p rest ih =>
    obtain ⟨i, n⟩ := p
    intro m k h
    by_cases hn : n = ""
    · rw [show mergeHeader m ((i, n) :: rest) = mergeHeader m rest by simp [mergeHeader, hn]]
      exact ih m k (fun i2 n2 hm => h i2 n2 (List.mem_cons_of_mem _ hm))
    · rw [show mergeHeader m ((i, n) :: rest) = mergeHeader (objSet m n (i : Int)) rest by
        simp [mergeHeader, hn]]
      rw [ih _ k (fun i2 n2 hm => h i2 n2 (List.mem_cons_of_mem _ hm))]
      exact assocGet_objSet_ne _ _ _ _ (h i n (List.mem_cons_self _ _))

theorem mem_enumPairsFrom (l : List String) :
    ∀ (start i : Nat) (n : String), (i, n) ∈ enumPairsFrom start l →
      n ∈ l ∧ start ≤ i ∧ i < start + l.length := by
  induction l with
  | nil => intro start i n h; simp [enumPairsFrom] at h
  | cons a rest ih =>
    intro start i n h
    simp only [enumPairsFrom, List.mem_cons] at h
    rcases h with h | h
    · have hi : i = start := congrArg Prod.fst h
      have hn : n = a := congrArg Prod.snd h
      subst hi
      subst hn
      exact ⟨List.mem_cons_self _ _, le_refl _, by simp only [List.length_cons]; omega⟩
    · obtain ⟨hmem, hle, hlt⟩ := ih (start + 1) i n h
      exact ⟨List.mem_cons_of_mem _ hmem, by omega, by simp only [List.length_cons]; omega⟩

theorem assocGet_mergeHeader_head (m : List (String × Int)) (k : String)
    (rest : List String) (hk : k ≠ "") (hrest : k ∉ rest) :
    assocGet (mergeHeader m (enumPairsFrom 0 (k :: rest))) k = some 0 := by
  rw [show enumPairsFrom 0 (k :: rest) = (0, k) :: enumPairsFrom 1 rest from rfl]
  rw [show mergeHeader m ((0, k) :: enumPairsFrom 1 rest) =
      mergeHeader (objSet m k 0) (enumPairsFrom 1 rest) by simp [mergeHeader, hk]]
  rw [assocGet_mergeHeader_not_mem _ _ _ (fun i n hm hnk => ?_)]
  · exact assocGet_objSet_self _ _ _
  · subst hnk
    exact hrest (mem_enumPairsFrom rest 1 i n hm).1

theorem assocGet_mergeHeader_cases (l : List String) :
    ∀ (start : Nat) (m : List (String × Int)) (k : String) (v : Int),
      assocGet (mergeHeader m (enumPairsFrom start l)) k = some v →
      assocGet m k = some v ∨ ∃ i : Nat, v = (i : Int) ∧ start ≤ i ∧ i < start + l.length := by
  induction l with
  | nil => intro start m k v h; exact Or.inl h
  | cons n rest ih =>
    intro start m k v h
    by_cases hn : n = ""
    · rw [show mergeHeader m (enumPairsFrom start (n :: rest)) =
          mergeHeader m (enumPairsFrom (start + 1) rest) by
            simp [enumPairsFrom, mergeHeader, hn]] at h
      rcases ih (start + 1) m k v h with h2 | ⟨i, hv, hle, hlt⟩
      · exact Or.inl h2
      · exact Or.inr ⟨i, hv, by omega, by simp only [List.length_cons]; omega⟩
    · rw [show mergeHeader m (enumPairsFrom start (n :: rest)) =
          mergeHeader (objSet m n (start : Int)) (enumPairsFrom (start + 1) rest) by
            simp [enumPairsFrom, mergeHeader, hn]] at h
      rcases ih (start + 1) _ k v h with h2 | ⟨i, hv, hle, hlt⟩
      · by_cases hkn : n = k
        · subst hkn
          rw [assocGet_objSet_self] at h2
          refine Or.inr ⟨start, (Option.some.inj h2).symm, le_refl _, ?_⟩
          simp only [List.length_cons]
          omega
        · rw [assocGet_objSet_ne _ _ _ _ hkn] at h2
          exact Or.inl h2
      · exact Or.inr ⟨i, hv, by omega, by simp only [List.length_cons]; omega⟩

theorem headerMap_lookup_bounds (e : RemoteEnv) (k : String) (v : Int)
    (h : assocGet (headerMap e) k = some v) :
    ∃ i : Nat, v = (i : Int) ∧ i < e.header.length := by
  rcases assocGet_mergeHeader_cases e.header 0 [] k v h with h2 | ⟨i, hv, _, hlt⟩
  · exact absurd h2 (by simp [assocGet])
  · exact ⟨i, hv, by omega⟩

theorem memoLenPositive_no_length_col (e : RemoteEnv) (m : List (String × Int))
    (hm : assocGet m "length" = none) (h : "length" ∉ e.header) :
    memoLenPositive (mergeHeader m (enumPairsFrom 0 e.header)) = false := by
  have hside : ∀ i n, (i, n) ∈ enumPairsFrom 0 e.header → n ≠ "length" := by
    intro i n hmem hn
    exact h (hn ▸ (mem_enumPairsFrom e.header 0 i n hmem).1)
  unfold memoLenPositive
  rw [assocGet_mergeHeader_not_mem _ _ _ hside, hm]

theorem findIdxO_map (l : List α) (f : α → β) (p : β → Bool) :
    findIdxO (l.map f) p = findIdxO l (fun a => p (f a)) := by
  induction l with
  | nil => rfl
  | cons a rest ih => by_cases h : p (f a) <;> simp [findIdxO, h, ih]

theorem findIdxO_none_iff (l : List α) (p : α → Bool) :
    findIdxO l p = none ↔ ∀ a ∈ l, p a = false := by
  induction l with
  | nil => simp [findIdxO]
  | cons a rest ih =>
    by_cases h : p a
    · simp [findIdxO, h]
    · simp only [Bool.not_eq_true] at h
      simp [findIdxO, h, ih]

theorem findIdxO_some_lt (l : List α) (p : α → Bool) (k : Nat)
    (h : findIdxO l p = some k) : k < l.length := by
  induction l generalizing k with
  | nil => exact absurd h (by simp [findIdxO])
  | cons a rest ih =>
    by_cases hp : p a
    · rw [show findIdxO (a :: rest) p = some 0 by simp [findIdxO, hp]] at h
      rw [← Option.some.inj h]
      simp
    · have h2 : (findIdxO rest p).map (· + 1) = some k := by
        simpa [findIdxO, hp] using h
      cases hk : findIdxO rest p with
      | none => rw [hk] at h2; exact absurd h2 (by simp)
      | some k2 =>
        rw [hk] at h2
        simp only [Option.map_some'] at h2
        have := ih k2 hk
        rw [← Option.some.inj h2]
        simp only [List.length_cons]
        omega

theorem findIdxO_some_get (l : List α) (p : α → Bool) (k : Nat)
    (h : findIdxO l p = some k) : ∃ a, l[k]? = some a ∧ p a = true := by
  induction l generalizing k with
  | nil => exact absurd h (by simp [findIdxO])
  | cons a rest ih =>
    by_cases hp : p a
    · rw [show findIdxO (a :: rest) p = some 0 by simp [findIdxO, hp]] at h
      rw [← Option.some.inj h]
      exact ⟨a, by simp, hp⟩
    · have h2 : (findIdxO rest p).map (· + 1) = some k := by
        simpa [findIdxO, hp] using h
      cases hk : findIdxO rest p with
      | none => rw [hk] at h2; exact absurd h2 (by simp)
      | some k2 =>
        rw [hk] at h2
        simp only [Option.map_some'] at h2
        obtain ⟨b, hb, hpb⟩ := ih k2 hk
        rw [← Option.some.inj h2]
        exact ⟨b, by simpa using hb, hpb⟩

theorem findIdxO_some_first (l : List α) (p : α → Bool) (k : Nat)
    (h : findIdxO l p = some k) :
    ∀ m2 a, m2 < k → l[m2]? = some a → p a = false := by
  induction l generalizing k with
  | nil => exact absurd h (by simp [findIdxO])
  | cons x rest ih =>
    by_cases hp : p x
    · rw [show findIdxO (x :: rest) p = some 0 by simp [findIdxO, hp]] at h
      rw [← Option.some.inj h]
      intro m2 a hm2
      omega
    · have h2 : (findIdxO rest p).map (· + 1) = some k := by
        simpa [findIdxO, hp] using h
      cases hk : findIdxO rest p with
      | none => rw [hk] at h2; exact absurd h2 (by simp)
      | some k2 =>
        rw [hk] at h2
        simp only [Option.map_some'] at h2
        rw [← Option.some.inj h2]
        intro m2 a hm2 hget
        match m2 with
        | 0 =>
          simp only [List.getElem?_cons_zero] at hget
          rw [← Option.some.inj hget]
          exact Bool.not_eq_true _ ▸ hp
        | m3 + 1 =>
          simp only [List.getElem?_cons_succ] at hget
          exact ih k2 hk m3 a (by omega) hget

theorem findIdxO_append_singleton (l : List α) (p : α → Bool) (b : α)
    (h : findIdxO l p = none) (hb : p b = true) :
    findIdxO (l ++ [b]) p = some l.length := by
  induction l with
  | nil => simp [findIdxO, hb]
  | cons a rest ih =>
    by_cases hp : p a
    · rw [show findIdxO (a :: rest) p = some 0 by simp [findIdxO, hp]] at h
      exact absurd h (by simp)
    · have h2 : findIdxO rest p = none := by
        have := (findIdxO_none_iff (a :: rest) p).mp h
        exact (findIdxO_none_iff rest p).mpr (fun c hc => this c (List.mem_cons_of_mem _ hc))
      simp [findIdxO, hp, ih h2]

theorem findIdxO_set (l : List α) (p : α → Bool) (k : Nat) (b : α)
    (h : findIdxO l p = some k) (hb : p b = true) :
    findIdxO (l.set k b) p = some k := by
  induction l generalizing k with
  | nil => exact absurd h (by simp [findIdxO])
  | cons a rest ih =>
    by_cases hp : p a
    · rw [show findIdxO (a :: rest) p = some 0 by simp [findIdxO, hp]] at h
      rw [← Option.some.inj h]
      simp [List.set, findIdxO, hb]
    · have h2 : (findIdxO rest p).map (· + 1) = some k := by
        simpa [findIdxO, hp] using h
      cases hk : findIdxO rest p with
      | none => rw [hk] at h2; exact absurd h2 (by simp)
      | some k2 =>
        rw [hk] at h2
        simp only [Option.map_some'] at h2
        rw [← Option.some.inj h2]
        have := ih k2 hk
        simp [List.set, findIdxO, hp, this]

theorem set_append_length (l : List α) (a b : α) :
    (l ++ [a]).set l.length b = l ++ [b] := by
  induction l with
  | nil => rfl
  | cons x rest ih => exact congrArg (List.cons x) ih

theorem getFirstActiveWorksheetId_memo (s : Session) (e : RemoteEnv) (w : String)
    (hw : s.loadedWorkSheetId = some w) (hne : w ≠ "") :
    getFirstActiveWorksheetId s e = (.ok w, s, e, []) := by
  unfold getFirstActiveWorksheetId
  rw [hw]
  simp [truthyOptStr, hne]

theorem getFirstActiveWorksheetId_fresh (s : Session) (e : RemoteEnv) (w0 : Worksheet)
    (hws : s.loadedWorkSheetId = none) (hst : s.loadedStoreSheetId = none)
    (hne : e.worksheets ≠ []) (hvis : (visibleWorksheets e).head? = some w0) :
    getFirstActiveWorksheetId s e =
      (.ok w0.id, { s with loadedWorkSheetId := some w0.id }, e, [.reqWorksheets]) := by
  unfold getFirstActiveWorksheetId
  rw [hws, hst, hvis]
  simp [truthyOptStr, List.length_eq_zero, hne]

theorem getFirstTable_memo (s : Session) (e : RemoteEnv) (t : String)
    (ht : s.loadedTableId = some t) (hne : t ≠ "") :
    getFirstTable s e = (.ok t, s, e, []) := by
  unfold getFirstTable
  rw [ht]
  simp [truthyOptStr, hne]

theorem getFirstTable_wsMemo (s : Session) (e : RemoteEnv) (w t0 : String)
    (trest : List String)
    (hw : s.loadedWorkSheetId = some w) (hwne : w ≠ "")
    (htb0 : s.loadedTableId = none) (htb : e.tables = t0 :: trest) :
    getFirstTable s e = (.ok t0, { s with loadedTableId := some t0 }, e, [.reqTables]) := by
  unfold getFirstTable
  rw [htb0]
  simp only [show truthyOptStr none = false from rfl, Bool.false_eq_true, if_false,
    getFirstActiveWorksheetId_memo s e w hw hwne, htb]
  rfl

theorem getFirstTable_fresh (s : Session) (e : RemoteEnv) (w0 : Worksheet)
    (t0 : String) (trest : List String)
    (hws : s.loadedWorkSheetId = none) (hst : s.loadedStoreSheetId = none)
    (htb0 : s.loadedTableId = none)
    (hne : e.worksheets ≠ []) (hvis : (visibleWorksheets e).head? = some w0)
    (htb : e.tables = t0 :: trest) :
    getFirstTable s e =
      (.ok t0,
       { s with loadedWorkSheetId := some w0.id, loadedTableId := some t0 },
       e, [.reqWorksheets, .reqTables]) := by
  unfold getFirstTable
  rw [htb0]
  simp only [show truthyOptStr none = false from rfl, Bool.false_eq_true, if_false,
    getFirstActiveWorksheetId_fresh s e w0 hws hst hne hvis, htb]
  rfl

theorem getHeaderRow_resolved (s : Session) (e : RemoteEnv) (w t : String)
    (hw : s.loadedWorkSheetId = some w) (hwne : w ≠ "")
    (ht : s.loadedTableId = some t) (htne : t ≠ "")
    (hmemo : memoLenPositive s.loadedHeaderRow = false)
    (hhd : e.header ≠ []) :
    getHeaderRow s e =
      (.ok (mergeHeader s.loadedHeaderRow (enumPairsFrom 0 e.header)),
       { s with loadedHeaderRow := mergeHeader s.loadedHeaderRow (enumPairsFrom 0 e.header) },
       e, [.reqColumns]) := by
  unfold getHeaderRow
  rw [hmemo]
  obtain ⟨h0, hrest, hh⟩ := List.exists_cons_of_ne_nil hhd
  simp only [Bool.false_eq_true, if_false, getFirstTable_memo s e t ht htne,
    getFirstActiveWorksheetId_memo s e w hw hwne, hh]
  simp

theorem findRowIndexByID_resolved (s : Session) (e : RemoteEnv) (w t colName : String)
    (v : JsValue) (j : Int)
    (hw : s.loadedWorkSheetId = some w) (hwne : w ≠ "")
    (ht : s.loadedTableId = some t) (htne : t ≠ "")
    (hmemo : memoLenPositive s.loadedHeaderRow = false)
    (hhd : e.header ≠ [])
    (hcol : assocGet (mergeHeader s.loadedHeaderRow (enumPairsFrom 0 e.header)) colName = some j)
    (hj0 : 0 ≤ j) (hjlt : j.toNat < e.header.length) :
    findRowIndexByID colName v s e =
      (.ok (jsFindIndex e.rows (rowMatches j.toNat v)),
       { s with loadedHeaderRow := mergeHeader s.loadedHeaderRow (enumPairsFrom 0 e.header) },
       e, [.reqColumns, .reqColumnValues (some j)]) := by
  have hmap : jsFindIndex ((columnCells e j.toNat).drop 1)
      (fun el => parseIntEq (el.getD 0 .vUndefined) v) = jsFindIndex e.rows (rowMatches j.toNat v) := by
    show jsFindIndex (e.rows.map (fun r => [r.getD j.toNat .vUndefined])) _ = _
    unfold jsFindIndex
    rw [findIdxO_map]
    rfl
  have hjne : ¬((some j : Option Int) = some (-1)) := by
    simp only [Option.some.injEq]
    omega
  unfold findRowIndexByID
  simp only [getFirstTable_memo s e t ht htne,
    getFirstActiveWorksheetId_memo s e w hw hwne,
    getHeaderRow_resolved s e w t hw hwne ht htne hmemo hhd,
    hcol, if_neg hjne, if_pos (And.intro hj0 hjlt), hmap]
  rfl

theorem findRowIndexByID_fresh (sc : Option String) (e : RemoteEnv) (w0 : Worksheet)
    (t0 : String) (trest : List String) (colName : String) (v : JsValue) (j : Int)
    (hne : e.worksheets ≠ []) (hvis : (visibleWorksheets e).head? = some w0) (hw0 : w0.id ≠ "")
    (htb : e.tables = t0 :: trest) (ht0 : t0 ≠ "")
    (hhd : e.header ≠ [])
    (hcol : assocGet (headerMap e) colName = some j) :
    findRowIndexByID colName v (freshSession sc) e =
      (.ok (jsFindIndex e.rows (rowMatches j.toNat v)),
       resolvedSession sc w0.id t0 (headerMap e), e,
       [.reqWorksheets, .reqTables, .reqColumns, .reqColumnValues (some j)]) := by
  obtain ⟨i, hi, hilt⟩ := headerMap_lookup_bounds e colName j hcol
  have hj0 : 0 ≤ j := by omega
  have hjlt : j.toNat < e.header.length := by omega
  have hmap : jsFindIndex ((columnCells e j.toNat).drop 1)
      (fun el => parseIntEq (el.getD 0 .vUndefined) v) = jsFindIndex e.rows (rowMatches j.toNat v) := by
    show jsFindIndex (e.rows.map (fun r => [r.getD j.toNat .vUndefined])) _ = _
    unfold jsFindIndex
    rw [findIdxO_map]
    rfl
  have hjne : ¬((some j : Option Int) = some (-1)) := by
    simp only [Option.some.injEq]
    omega
  have h1 : getFirstTable (freshSession sc) e =
      (.ok t0, wsTableSession sc w0.id t0, e, [.reqWorksheets, .reqTables]) :=
    getFirstTable_fresh (freshSession sc) e w0 t0 trest rfl rfl rfl hne hvis htb
  have h2 : getFirstActiveWorksheetId (wsTableSession sc w0.id t0) e =
      (.ok w0.id, wsTableSession sc w0.id t0, e, []) :=
    getFirstActiveWorksheetId_memo _ e w0.id rfl hw0
  have h3 : getHeaderRow (wsTableSession sc w0.id t0) e =
      (.ok (headerMap e), resolvedSession sc w0.id t0 (headerMap e), e, [.reqColumns]) :=
    getHeaderRow_resolved (wsTableSession sc w0.id t0) e w0.id t0 rfl hw0 rfl ht0 rfl hhd
  unfold findRowIndexByID
  simp only [h1, h2, h3, hcol, if_neg hjne, if_pos (And.intro hj0 hjlt), hmap]
  rfl

theorem getHeaderRow_fresh (sc : Option String) (e : RemoteEnv) (w0 : Worksheet)
    (t0 : String) (trest : List String)
    (hne : e.worksheets ≠ []) (hvis : (visibleWorksheets e).head? = some w0)
    (hw0 : w0.id ≠ "") (htb : e.tables = t0 :: trest) (ht0 : t0 ≠ "")
    (hhd : e.header ≠ []) :
    getHeaderRow (freshSession sc) e =
      (.ok (headerMap e), resolvedSession sc w0.id t0 (headerMap e), e,
       [.reqWorksheets, .reqTables, .reqColumns]) := by
  have h1 : getFirstTable (freshSession sc) e =
      (.ok t0, wsTableSession sc w0.id t0, e, [.reqWorksheets, .reqTables]) :=
    getFirstTable_fresh (freshSession sc) e w0 t0 trest rfl rfl rfl hne hvis htb
  have h2 : getFirstActiveWorksheetId (wsTableSession sc w0.id t0) e =
      (.ok w0.id, wsTableSession sc w0.id t0, e, []) :=
    getFirstActiveWorksheetId_memo _ e w0.id rfl hw0
  unfold getHeaderRow
  obtain ⟨h0, hrest, hh⟩ := List.exists_cons_of_ne_nil hhd
  simp only [show memoLenPositive (freshSession sc).loadedHeaderRow = false from rfl,
    Bool.false_eq_true, if_false, h1, h2, hh]
  simp [headerMap, hh, resolvedSession, wsTableSession, freshSession]

theorem saveRowData_post (jp : JsValue → Option JsonVal)
    (jsonData : List (String × JsValue)) (s : Session) (e : RemoteEnv) (w t : String)
    (hw : s.loadedWorkSheetId = some w) (hwne : w ≠ "")
    (ht : s.loadedTableId = some t) (htne : t ≠ "")
    (hlen : (prepareDataForUpdate jp s.loadedStoreCode jsonData).length = 14) :
    saveRowData jp jsonData none s e =
      (.ok true, s,
       { e with rows := e.rows ++ [prepareDataForUpdate jp s.loadedStoreCode jsonData] },
       [.reqRowPost (prepareDataForUpdate jp s.loadedStoreCode jsonData)]) := by
  unfold saveRowData
  simp only [getFirstActiveWorksheetId_memo s e w hw hwne,
    getFirstTable_memo s e t ht htne,
    if_neg (show ¬(getSheetColumnsToUpdate.length ≠
        (prepareDataForUpdate jp s.loadedStoreCode jsonData).length) by
      rw [hlen]; exact fun hcontra => hcontra rfl)]
  rfl

theorem saveRowData_patch (jp : JsValue → Option JsonVal)
    (jsonData : List (String × JsValue)) (s : Session) (e : RemoteEnv) (w t : String)
    (i : Int)
    (hw : s.loadedWorkSheetId = some w) (hwne : w ≠ "")
    (ht : s.loadedTableId = some t) (htne : t ≠ "")
    (hlen : (prepareDataForUpdate jp s.loadedStoreCode jsonData).length = 14)
    (hi0 : 0 ≤ i) (hilt : i.toNat < e.rows.length) :
    saveRowData jp jsonData (some i) s e =
      (.ok true, s,
       { e with rows := e.rows.set i.toNat (prepareDataForUpdate jp s.loadedStoreCode jsonData) },
       [.reqRowPatch i (prepareDataForUpdate jp s.loadedStoreCode jsonData)]) := by
  unfold saveRowData
  simp only [getFirstActiveWorksheetId_memo s e w hw hwne,
    getFirstTable_memo s e t ht htne,
    if_neg (show ¬(getSheetColumnsToUpdate.length ≠
        (prepareDataForUpdate jp s.loadedStoreCode jsonData).length) by
      rw [hlen]; exact fun hcontra => hcontra rfl),
    if_pos (And.intro hi0 hilt)]
  rfl

theorem prepareDataGo_length (jp : JsValue → Option JsonVal) (sc : Option String)
    (elem : List (String × JsValue)) :
    ∀ ks : List String, (∀ k ∈ ks, recordGet elem k ≠ .vUndefined) →
      (prepareDataGo jp sc elem ks).length = ks.length := by
  intro ks
  induction ks with
  | nil => intro _; rfl
  | cons k rest ih =>
    intro h
    have hk : recordGet elem k ≠ .vUndefined := h k (List.mem_cons_self _ _)
    rw [show prepareDataGo jp sc elem (k :: rest) =
        transformValue jp sc k (recordGet elem k) :: prepareDataGo jp sc elem rest by
      simp [prepareDataGo, hk]]
    simp only [List.length_cons]
    rw [ih (fun k2 hk2 => h k2 (List.mem_cons_of_mem _ hk2))]

theorem recordGet_ne_undef_nonempty (elem : List (String × JsValue)) (k : String)
    (h : recordGet elem k ≠ .vUndefined) : 0 < elem.length := by
  cases elem with
  | nil => exact absurd rfl h
  | cons a rest => simp

theorem prepareDataForUpdate_length (jp : JsValue → Option JsonVal) (sc : Option String)
    (elem : List (String × JsValue))
    (hall : ∀ k ∈ getSheetColumnsToUpdate, recordGet elem k ≠ .vUndefined) :
    (prepareDataForUpdate jp sc elem).length = 14 := by
  have hne : 0 < elem.length :=
    recordGet_ne_undef_nonempty elem "schedule_id"
      (hall "schedule_id" (List.mem_cons_self _ _))
  unfold prepareDataForUpdate
  rw [if_pos hne]
  rw [prepareDataGo_length jp sc elem getSheetColumnsToUpdate hall]
  rfl

theorem transformValue_schedule_id (jp : JsValue → Option JsonVal) (sc : Option String)
    (v : JsValue) : transformValue jp sc "schedule_id" v = v := by
  unfold transformValue
  rw [if_neg (by decide), if_neg (by decide)]

theorem prepareDataForUpdate_head (jp : JsValue → Option JsonVal) (sc : Option String)
    (elem : List (String × JsValue))
    (hall : ∀ k ∈ getSheetColumnsToUpdate, recordGet elem k ≠ .vUndefined) :
    (prepareDataForUpdate jp sc elem).getD 0 .vUndefined = recordGet elem "schedule_id" := by
  have hne : 0 < elem.length :=
    recordGet_ne_undef_nonempty elem "schedule_id"
      (hall "schedule_id" (List.mem_cons_self _ _))
  have hsid : recordGet elem "schedule_id" ≠ .vUndefined :=
    hall "schedule_id" (List.mem_cons_self _ _)
  unfold prepareDataForUpdate
  rw [if_pos hne]
  rw [show prepareDataGo jp sc elem getSheetColumnsToUpdate =
      transformValue jp sc "schedule_id" (recordGet elem "schedule_id") ::
        prepareDataGo jp sc elem (getSheetColumnsToUpdate.drop 1) by
    simp only [getSheetColumnsToUpdate, prepareDataGo, if_neg hsid, List.drop]]
  rw [transformValue_schedule_id]
  rfl

theorem prepareDataGo_mem (jp : JsValue → Option JsonVal) (sc : Option String)
    (elem : List (String × JsValue)) (key : String) :
    ∀ ks : List String, key ∈ ks → recordGet elem key ≠ .vUndefined →
      ∃ pos : Nat, (prepareDataGo jp sc elem ks)[pos]? =
        some (transformValue jp sc key (recordGet elem key)) := by
  intro ks
  induction ks with
  | nil => intro hmem; exact absurd hmem (List.not_mem_nil _)
  | cons k rest ih =>
    intro hmem hdefined
    by_cases hk : k = key
    · subst hk
      exact ⟨0, by simp [prepareDataGo, if_neg hdefined]⟩
    · have hmem2 : key ∈ rest := by
        rcases List.mem_cons.mp hmem with h | h
        · exact absurd h.symm hk
        · exact h
      obtain ⟨pos, hpos⟩ := ih hmem2 hdefined
      by_cases hd : recordGet elem k = .vUndefined
      · exact ⟨pos, by simp only [prepareDataGo, if_pos hd]; exact hpos⟩
      · exact ⟨pos + 1, by simp only [prepareDataGo, if_neg hd, List.getElem?_cons_succ]; exact hpos⟩

theorem retryTick_spec (f : Nat → UploadOutcome) :
    ∀ (fuel k : Nat), k + fuel = maxRetries → 0 < fuel →
      k < (retryTick f k fuel).attempts ∧
      (retryTick f k fuel).attempts ≤ maxRetries ∧
      (retryTick f k fuel).cleared = true ∧
      (∀ i, k ≤ i → i + 1 < (retryTick f k fuel).attempts → f i = .lockedError) ∧
      (retryTick f k fuel).lastOutcome = f ((retryTick f k fuel).attempts - 1) ∧
      ((∀ i, k ≤ i → i < maxRetries → f i = .lockedError) →
        (retryTick f k fuel).attempts = maxRetries) := by
  intro fuel
  induction fuel with
  | zero => intro k _ h0; exact absurd h0 (by omega)
  | succ fuel2 ih =>
    intro k hsum _
    by_cases hstop : k + 1 = maxRetries ∨ f k ≠ .lockedError
    · rw [show retryTick f k (fuel2 + 1) = ⟨k + 1, true, f k⟩ by
        simp only [retryTick, if_pos hstop]]
      refine ⟨Nat.lt_succ_self k, ?_, rfl, ?_, rfl, ?_⟩
      · show k + 1 ≤ maxRetries
        omega
      · intro i hki hi
        have hi2 : i + 1 < k + 1 := hi
        omega
      · intro hall
        show k + 1 = maxRetries
        rcases hstop with h | h
        · exact h
        · exact absurd (hall k (le_refl _) (by omega)) h
    · push_neg at hstop
      obtain ⟨hknm, hlock⟩ := hstop
      rw [show retryTick f k (fuel2 + 1) = retryTick f (k + 1) fuel2 by
        simp only [retryTick]
        rw [if_neg (by push_neg; exact ⟨hknm, hlock⟩)]]
      have hfuel2 : 0 < fuel2 := by omega
      obtain ⟨ha1, ha2, ha3, ha4, ha5, ha6⟩ := ih (k + 1) (by omega) hfuel2
      refine ⟨by omega, ha2, ha3, ?_, ha5, ?_⟩
      · intro i hki hi
        by_cases hik : i = k
        · subst hik
          exact hlock
        · exact ha4 i (by omega) hi
      · intro hall
        exact ha6 (fun i hi hilt => hall i (by omega) hilt)

/-- Claim C1 (code bug): on a table whose matching schedule_id row is the
first data row (position 0), deactivateRow does not return true with the
status cell set to 0; the row locator returns index 0 (the row exists),
but getRowDataByIndex treats every index below 1 as invalid and yields
null, so the status assignment throws a TypeError, no PATCH is issued
and the table is left unchanged. -/
theorem c1_deactivateRow_crashes_on_first_data_row :
    deactivateRow (.vStr "42") (freshSession none) envOneRow =
      (.error .typeError,
       resolvedSession none "ws1" "tbl1" [("schedule_id", 0), ("status", 1)],
       envOneRow,
       [.reqWorksheets, .reqTables, .reqColumns, .reqColumnValues (some 0), .reqColumns]) ∧
    (findRowIndexByID "schedule_id" (jsParseIntVal (.vStr "42")) (freshSession none) envOneRow).1 =
      .ok 0 := by
  decide

/-- Claim C4 (code bug): for a column name absent from the header map,
findRowIndexByID does not throw the SchemaError and does issue the
column-values read.  The guard compares the lookup === -1, but a missing
key yields undefined, so the read goes out with index=undefined and the
call fails with the remote error instead. -/
theorem c4_missing_column_read_still_issued :
    findRowIndexByID "coupon_code" (.vNum 1) (freshSession none) envOneRow =
      (.error .axiosError,
       resolvedSession none "ws1" "tbl1" [("schedule_id", 0), ("status", 1)],
       envOneRow,
       [.reqWorksheets, .reqTables, .reqColumns, .reqColumnValues none]) ∧
    Request.reqColumnValues none ∈
      (findRowIndexByID "coupon_code" (.vNum 1) (freshSession none) envOneRow).2.2.2 ∧
    (findRowIndexByID "coupon_code" (.vNum 1) (freshSession none) envOneRow).1 ≠
      .error (.thrown "Column coupon_code not found in the excel sheet") := by
  decide

/-- Claim C5 (code bug): worksheet-id and table-id resolution are
memoized (a second call issues no request), but header-map resolution is
not: its memo check reads .length on a plain object, which is undefined,
so a second getHeaderRow call after a successful first one re-issues the
columns request (returning the same map). -/
theorem c5_header_map_not_memoized :
    (getHeaderRow (freshSession none) envOneRow).2.2.2 =
      [.reqWorksheets, .reqTables, .reqColumns] ∧
    (getHeaderRow ((getHeaderRow (freshSession none) envOneRow).2.1) envOneRow).1 =
      (getHeaderRow (freshSession none) envOneRow).1 ∧
    (getHeaderRow ((getHeaderRow (freshSession none) envOneRow).2.1) envOneRow).2.2.2 =
      [.reqColumns] ∧
    (getHeaderRow ((getHeaderRow (freshSession none) envOneRow).2.1) envOneRow).2.2.2 ≠ [] ∧
    (getFirstActiveWorksheetId ((getHeaderRow (freshSession none) envOneRow).2.1)
        envOneRow).2.2.2 = [] ∧
    (getFirstTable ((getHeaderRow (freshSession none) envOneRow).2.1) envOneRow).2.2.2 = [] := by
  decide

/-- Claim C6: the conflict-retry transport runs on a fixed 500 ms
interval with ceiling 60 = 30 s / 500 ms; for every sequence of attempt
outcomes the loop makes between 1 and 60 attempts, clears its timer,
every attempt before the last saw a locked error (the loop stops
immediately after the first success or non-lock failure), the final
attempt produces the reported last outcome, and an upload that stays
locked on every attempt stops after exactly 60 attempts with the locked
failure as its outcome. -/
theorem c6_retry_bounded_termination :
    delayInMiliSec = 500 ∧ maxRetries = 60 ∧
    ∀ f : Nat → UploadOutcome,
      1 ≤ (retryFileUpload f).attempts ∧
      (retryFileUpload f).attempts ≤ maxRetries ∧
      (retryFileUpload f).cleared = true ∧
      (∀ i, i + 1 < (retryFileUpload f).attempts → f i = .lockedError) ∧
      (retryFileUpload f).lastOutcome = f ((retryFileUpload f).attempts - 1) ∧
      ((∀ i, i < maxRetries → f i = .lockedError) →
        (retryFileUpload f).attempts = maxRetries ∧
        (retryFileUpload f).lastOutcome = .lockedError) := by
  refine ⟨rfl, rfl, fun f => ?_⟩
  obtain ⟨h1, h2, h3, h4, h5, h6⟩ :=
    retryTick_spec f maxRetries 0 (Nat.zero_add _) (by decide)
  refine ⟨h1, h2, h3, fun i hi => h4 i (Nat.zero_le i) hi, h5, fun hall => ?_⟩
  have ha : (retryFileUpload f).attempts = maxRetries := h6 (fun i _ hilt => hall i hilt)
  refine ⟨ha, ?_⟩
  show (retryTick f 0 maxRetries).lastOutcome = UploadOutcome.lockedError
  have ha2 : (retryTick f 0 maxRetries).attempts = maxRetries :=
    h6 (fun i _ hilt => hall i hilt)
  rw [h5, ha2]
  exact hall (maxRetries - 1) (by decide)

/-- Claim C8: parseBoolToInt returns 1 exactly when its argument — after
trimming and lower-casing if it is a string — is one of true, "true", 1,
"1", "on", "yes", and 0 for every other value; in particular true,
"TRUE", "1", "on", "Yes" map to 1 and false, "0", "", undefined, "no"
map to 0. -/
theorem c8_parseBoolToInt_truth_table (v : JsValue) :
    (parseBoolToInt v = 1 ↔
      (v = .vBool true ∨ v = .vNum 1 ∨
       ∃ s, v = .vStr s ∧
         (jsToLowerCase (jsTrim s) = "true" ∨ jsToLowerCase (jsTrim s) = "1" ∨
          jsToLowerCase (jsTrim s) = "on" ∨ jsToLowerCase (jsTrim s) = "yes"))) ∧
    (parseBoolToInt v = 1 ∨ parseBoolToInt v = 0) ∧
    parseBoolToInt (.vBool true) = 1 ∧ parseBoolToInt (.vStr "TRUE") = 1 ∧
    parseBoolToInt (.vStr "1") = 1 ∧ parseBoolToInt (.vStr "on") = 1 ∧
    parseBoolToInt (.vStr "Yes") = 1 ∧ parseBoolToInt (.vBool false) = 0 ∧
    parseBoolToInt (.vStr "0") = 0 ∧ parseBoolToInt (.vStr "") = 0 ∧
    parseBoolToInt .vUndefined = 0 ∧ parseBoolToInt (.vStr "no") = 0 := by
  refine ⟨?_, ?_, by decide, by decide, by decide, by decide, by decide, by decide,
    by decide, by decide, by decide, by decide⟩
  · cases v with
    | vStr s =>
      by_cases h1 : jsToLowerCase (jsTrim s) = "true" <;>
        by_cases h2 : jsToLowerCase (jsTrim s) = "1" <;>
          by_cases h3 : jsToLowerCase (jsTrim s) = "on" <;>
            by_cases h4 : jsToLowerCase (jsTrim s) = "yes" <;>
              simp [parseBoolToInt, h1, h2, h3, h4]
    | vNum n => by_cases h : n = 1 <;> simp [parseBoolToInt, h]
    | vBool b => cases b <;> simp [parseBoolToInt]
    | vNaN => simp [parseBoolToInt]
    | vNull => simp [parseBoolToInt]
    | vUndefined => simp [parseBoolToInt]
  · unfold parseBoolToInt
    exact ite_eq_or_eq _ _ _

/-- Claim C7: for every known key column and integer-coercible key,
findRowIndexByID resolves the session, fetches the column value list
(one read), strips the header cell, and returns the 0-based data-row
position of the first cell whose integer coercion strictly equals the
integer coercion of the key, or -1 when no data cell matches. -/
theorem c7_findRowIndexByID_first_match (sc : Option String) (e : RemoteEnv)
    (w0 : Worksheet) (t0 : String) (trest : List String) (colName : String)
    (key : JsValue) (j n : Int)
    (hne : e.worksheets ≠ []) (hvis : (visibleWorksheets e).head? = some w0)
    (hw0 : w0.id ≠ "") (htb : e.tables = t0 :: trest) (ht0 : t0 ≠ "")
    (hhd : e.header ≠ [])
    (hcol : assocGet (headerMap e) colName = some j)
    (hkey : parseIntJS key = some n) :
    ∃ r : Int,
      findRowIndexByID colName key (freshSession sc) e =
        (.ok r, resolvedSession sc w0.id t0 (headerMap e), e,
         [.reqWorksheets, .reqTables, .reqColumns, .reqColumnValues (some j)]) ∧
      ((r = -1 ∧ ∀ row ∈ e.rows, rowMatches j.toNat key row = false) ∨
       (∃ k : Nat, r = (k : Int) ∧
         (∃ row, e.rows[k]? = some row ∧ rowMatches j.toNat key row = true) ∧
         (∀ m2 row2, m2 < k → e.rows[m2]? = some row2 →
           rowMatches j.toNat key row2 = false))) := by
  refine ⟨jsFindIndex e.rows (rowMatches j.toNat key),
    findRowIndexByID_fresh sc e w0 t0 trest colName key j hne hvis hw0 htb ht0 hhd hcol, ?_⟩
  unfold jsFindIndex
  cases hidx : findIdxO e.rows (rowMatches j.toNat key) with
  | none =>
    exact Or.inl ⟨rfl, fun row hrow => (findIdxO_none_iff _ _).mp hidx row hrow⟩
  | some k =>
    exact Or.inr ⟨k, rfl, findIdxO_some_get _ _ k hidx,
      fun m2 row2 hm2 hget => findIdxO_some_first _ _ k hidx m2 row2 hm2 hget⟩

/-- Claim C7 witness: on the column value list [header, "10", "42", "7"]
with key 42 the locator returns data-row index 1. -/
theorem c7_witness :
    (∃ r : Int,
      findRowIndexByID "schedule_id" (.vNum 42) (freshSession none) envLookupExample =
        (.ok r, resolvedSession none "ws1" "tbl1" (headerMap envLookupExample),
         envLookupExample,
         [.reqWorksheets, .reqTables, .reqColumns, .reqColumnValues (some 0)]) ∧
      ((r = -1 ∧ ∀ row ∈ envLookupExample.rows, rowMatches 0 (.vNum 42) row = false) ∨
       (∃ k : Nat, r = (k : Int) ∧
         (∃ row, envLookupExample.rows[k]? = some row ∧
           rowMatches 0 (.vNum 42) row = true) ∧
         (∀ m2 row2, m2 < k → envLookupExample.rows[m2]? = some row2 →
           rowMatches 0 (.vNum 42) row2 = false)))) ∧
    (findRowIndexByID "schedule_id" (.vNum 42) (freshSession none) envLookupExample).1 =
      .ok 1 := by
  constructor
  · exact c7_findRowIndexByID_first_match none envLookupExample ⟨"ws1", "Visible"⟩ "tbl1" []
      "schedule_id" (.vNum 42) 0 42 (by decide) (by decide) (by decide) rfl (by decide)
      (by decide) (by decide) (by decide)
  · decide

/-- Claim C10: findColumnIndexByHeader returns -1 exactly when the name
is absent from the resolved header map or its stored index is 0 (the
lookup falls back through the || -1 truthiness check); in particular a
named column sitting at positional index 0 — such as a status column in
the first position, the column deactivateRow consults — is reported as
not found. -/
theorem c10_zero_index_reported_not_found (sc : Option String) (e : RemoteEnv)
    (w0 : Worksheet) (t0 : String) (trest : List String) (name : String)
    (hne : e.worksheets ≠ []) (hvis : (visibleWorksheets e).head? = some w0)
    (hw0 : w0.id ≠ "") (htb : e.tables = t0 :: trest) (ht0 : t0 ≠ "")
    (hhd : e.header ≠ []) :
    ∃ res : Int,
      findColumnIndexByHeader name (freshSession sc) e =
        (.ok res, resolvedSession sc w0.id t0 (headerMap e), e,
         [.reqWorksheets, .reqTables, .reqColumns]) ∧
      (res = -1 ↔
        (assocGet (headerMap e) name = none ∨ assocGet (headerMap e) name = some 0)) ∧
      (∀ rest2, e.header = name :: rest2 → name ∉ rest2 → name ≠ "" → res = -1) := by
  refine ⟨jsOrNegOne (assocGet (headerMap e) name), ?_, ?_, ?_⟩
  · unfold findColumnIndexByHeader
    simp only [getHeaderRow_fresh sc e w0 t0 trest hne hvis hw0 htb ht0 hhd]
  · cases hlk : assocGet (headerMap e) name with
    | none => simp [jsOrNegOne]
    | some i =>
      obtain ⟨i2, hi2, _⟩ := headerMap_lookup_bounds e name i hlk
      by_cases hz : i = 0
      · subst hz
        simp [jsOrNegOne]
      · have hpos : 0 < i := by omega
        simp only [jsOrNegOne, if_neg hz, Option.some.injEq]
        constructor
        · intro hcontra
          omega
        · intro hcontra
          rcases hcontra with hcontra | hcontra
          · exact absurd hcontra (Option.noConfusion)
          · omega
  · intro rest2 hh2 hnmem hne2
    have : assocGet (headerMap e) name = some 0 := by
      unfold headerMap
      rw [hh2]
      exact assocGet_mergeHeader_head [] name rest2 hne2 hnmem
    rw [this]
    rfl

/-- Claim C10 witness: on a table whose status column is the first
column, findColumnIndexByHeader reports status as not found (-1), even
though the header map stores it at index 0. -/
theorem c10_witness :
    (∃ res : Int,
      findColumnIndexByHeader "status" (freshSession none) envStatusFirst =
        (.ok res, resolvedSession none "ws1" "tbl1" (headerMap envStatusFirst),
         envStatusFirst, [.reqWorksheets, .reqTables, .reqColumns]) ∧
      (res = -1 ↔
        (assocGet (headerMap envStatusFirst) "status" = none ∨
         assocGet (headerMap envStatusFirst) "status" = some 0)) ∧
      (∀ rest2, envStatusFirst.header = "status" :: rest2 → "status" ∉ rest2 →
        "status" ≠ "" → res = -1)) ∧
    (findColumnIndexByHeader "status" (freshSession none) envStatusFirst).1 = .ok (-1) ∧
    assocGet (headerMap envStatusFirst) "status" = some 0 := by
  refine ⟨?_, by decide, by decide⟩
  exact c10_zero_index_reported_not_found none envStatusFirst ⟨"ws1", "Visible"⟩ "tbl1" []
    "status" (by decide) (by decide) (by decide) rfl (by decide) (by decide)

/-- Claim C9: for each of the four localized text fields present on the
record, the mapped column vector contains, at that field's position,
JSON.parse(value)[storeCode] exactly when the value parses as JSON and
the session's (truthy) store code is a key of the parsed object, and the
original value unchanged when the value does not parse or the store code
is not a key; the mapping itself never fails on that account. -/
theorem c9_localized_field_mapping (jp : JsValue → Option JsonVal) (sc : String)
    (elem : List (String × JsValue)) (key : String) (v : JsValue)
    (hsc : sc ≠ "") (hkey : key ∈ localizedTextFields)
    (hlook : assocGet elem key = some v) (hv : v ≠ .vUndefined) :
    ∃ pos : Nat,
      (prepareDataForUpdate jp (some sc) elem)[pos]? =
        some (match jp v with
              | none => v
              | some jv =>
                match jsonGet jv sc with
                | none => v
                | some lv => lv) := by
  have hrg : recordGet elem key = v := by
    unfold recordGet
    rw [hlook]
    rfl
  have hdefined : recordGet elem key ≠ .vUndefined := by
    rw [hrg]
    exact hv
  have hkey4 : key = "description_en" ∨ key = "description_ar" ∨
      key = "short_terms_and_conditions_en" ∨ key = "short_terms_and_conditions_ar" := by
    simpa [localizedTextFields] using hkey
  rcases hkey4 with rfl | rfl | rfl | rfl <;>
  · obtain ⟨pos, hpos⟩ :=
      prepareDataGo_mem jp (some sc) elem _ getSheetColumnsToUpdate (by decide) hdefined
    refine ⟨pos, ?_⟩
    unfold prepareDataForUpdate
    rw [if_pos (recordGet_ne_undef_nonempty elem _ hdefined)]
    rw [hpos, hrg]
    show some _ = some _
    congr 1
    unfold transformValue
    rw [if_neg (by decide), if_pos (by decide)]
    cases hjp : jp v with
    | none => rfl
    | some jv =>
      show (if sc = "" then v else match jsonGet jv sc with | none => v | some lv => lv) = _
      rw [if_neg hsc]

/-- Claim C9 witness: with store code AE, a description field whose value
parses to an object with keys US and AE is mapped to the AE value, and a
sibling field with a non-parsing plain string is passed through
unchanged. -/
theorem c9_witness :
    (∃ pos : Nat,
      (prepareDataForUpdate jpExample (some "AE") recLocale)[pos]? =
        some (.vStr "مرحبا")) ∧
    (prepareDataForUpdate jpExample (some "AE") recLocale)[1]? = some (.vStr "مرحبا") ∧
    (prepareDataForUpdate jpExample (some "AE") recLocale)[2]? =
      some (.vStr "plain text") := by
  refine ⟨?_, by decide, by decide⟩
  exact c9_localized_field_mapping jpExample "AE" recLocale "description_en"
    (.vStr "locmapDescription") (by decide) (by decide) (by decide) (by decide)

/-- Claim C3 (counterexample to "before issuing any network call"): in a
fresh session, a record missing the status field makes saveRowData fail
with the column-count SchemaError, but only after the worksheet and
table resolution GET requests were already issued: the request trace of
the failing call is nonempty. -/
theorem c3_counterexample_resolution_requests_first :
    saveRowData jpNone recMissingStatus none (freshSession (some "AE")) envAligned =
      (.error (.thrown "Number of columns mismatched in post data"),
       wsTableSession (some "AE") "ws1" "tbl1", envAligned,
       [.reqWorksheets, .reqTables]) ∧
    (saveRowData jpNone recMissingStatus none (freshSession (some "AE")) envAligned).2.2.2 ≠
      [] := by
  decide

/-- Claim C3 (amended): for every record whose prepared column vector has
length different from the 14 recognized field names, saveRowData fails
with the column-count-mismatch SchemaError before issuing any row-write:
no POST or PATCH request is issued and the table is unchanged, though
the worksheet- and table-resolution reads are issued first in a fresh
session. -/
theorem c3_column_mismatch_blocks_write (jp : JsValue → Option JsonVal)
    (sc : Option String) (e : RemoteEnv) (r : List (String × JsValue))
    (rowIndex : Option Int) (w0 : Worksheet) (t0 : String) (trest : List String)
    (hne : e.worksheets ≠ []) (hvis : (visibleWorksheets e).head? = some w0)
    (hw0 : w0.id ≠ "") (htb : e.tables = t0 :: trest)
    (hmis : (prepareDataForUpdate jp sc r).length ≠ 14) :
    saveRowData jp r rowIndex (freshSession sc) e =
      (.error (.thrown "Number of columns mismatched in post data"),
       wsTableSession sc w0.id t0, e, [.reqWorksheets, .reqTables]) := by
  have h1 : getFirstActiveWorksheetId (freshSession sc) e =
      (.ok w0.id, { freshSession sc with loadedWorkSheetId := some w0.id }, e,
       [.reqWorksheets]) :=
    getFirstActiveWorksheetId_fresh (freshSession sc) e w0 rfl rfl hne hvis
  have h2 : getFirstTable ({ freshSession sc with loadedWorkSheetId := some w0.id }) e =
      (.ok t0, wsTableSession sc w0.id t0, e, [.reqTables]) :=
    getFirstTable_wsMemo _ e w0.id t0 trest rfl hw0 rfl htb
  unfold saveRowData
  simp only [h1, h2]
  rw [if_pos (show getSheetColumnsToUpdate.length ≠
      (prepareDataForUpdate jp (wsTableSession sc w0.id t0).loadedStoreCode r).length from
    fun hcontra => hmis hcontra.symm)]
  rfl

/-- Claim C3 witness: a record holding 13 of the 14 recognized fields is
rejected with the SchemaError and no POST or PATCH appears in the trace. -/
theorem c3_witness :
    saveRowData jpNone recMissingStatus (some 0) (freshSession (some "AE")) envAligned =
      (.error (.thrown "Number of columns mismatched in post data"),
       wsTableSession (some "AE") "ws1" "tbl1", envAligned,
       [.reqWorksheets, .reqTables]) :=
  c3_column_mismatch_blocks_write jpNone (some "AE") envAligned recMissingStatus (some 0)
    ⟨"ws1", "Visible"⟩ "tbl1" [] (by decide) (by decide) (by decide) rfl (by decide)

/-- Claim C2 (counterexample to "for every table state"): on a table
whose first two columns are swapped (rule_id before schedule_id), a
valid all-14-field record with a non-numeric rule_id is appended by the
first upsert, but the second upsert reads the schedule_id column at
position 1, finds the rule_id cell there, fails to match and appends a
second row: the table state after the second call differs from the state
after the first. -/
theorem c2_counterexample_column_order :
    ((createOrUpdateRows jpNone recFull (freshSession (some "AE")) envSwapped).1 = .ok true) ∧
    ((createOrUpdateRows jpNone recFull
        (createOrUpdateRows jpNone recFull (freshSession (some "AE")) envSwapped).2.1
        (createOrUpdateRows jpNone recFull (freshSession (some "AE")) envSwapped).2.2.1).2.2.1
      ≠ (createOrUpdateRows jpNone recFull (freshSession (some "AE")) envSwapped).2.2.1) := by
  decide

/-- Claim C2 (amended): for every valid record (all 14 recognized fields
defined, numeric schedule_id) and every table whose schedule_id column
sits at positional index 0 — the position at which the prepared vector
carries the record's schedule_id — upsert is idempotent: starting from a
fresh session, the second createOrUpdateRows call leaves the table state
exactly as it was after the first, locating the row the first call wrote
and patching it with the same column vector. -/
theorem c2_upsert_idempotent (jp : JsValue → Option JsonVal) (sc : Option String)
    (e : RemoteEnv) (r : List (String × JsValue)) (w0 : Worksheet) (t0 : String)
    (trest hrest : List String) (n : Int)
    (hne : e.worksheets ≠ []) (hvis : (visibleWorksheets e).head? = some w0)
    (hw0 : w0.id ≠ "") (htb : e.tables = t0 :: trest) (ht0 : t0 ≠ "")
    (hhdr : e.header = "schedule_id" :: hrest) (hsidr : "schedule_id" ∉ hrest)
    (hlencol : "length" ∉ e.header)
    (hall : ∀ k ∈ getSheetColumnsToUpdate, recordGet r k ≠ .vUndefined)
    (hn : parseIntJS (recordGet r "schedule_id") = some n) :
    ∃ s1 e1 tr1 s2 e2 tr2,
      createOrUpdateRows jp r (freshSession sc) e = (.ok true, s1, e1, tr1) ∧
      createOrUpdateRows jp r s1 e1 = (.ok true, s2, e2, tr2) ∧
      e2 = e1 ∧
      (∃ i : Int, Request.reqRowPatch i (prepareDataForUpdate jp sc r) ∈ tr2) := by
  have hpd14 : (prepareDataForUpdate jp sc r).length = 14 :=
    prepareDataForUpdate_length jp sc r hall
  have hkeyv : jsParseIntVal (recordGet r "schedule_id") = .vNum n := by
    unfold jsParseIntVal
    rw [hn]
  have hmatchpd : rowMatches 0 (jsParseIntVal (recordGet r "schedule_id"))
      (prepareDataForUpdate jp sc r) = true := by
    unfold rowMatches
    rw [prepareDataForUpdate_head jp sc r hall, hkeyv]
    unfold parseIntEq
    rw [hn]
    simp [parseIntJS]
  have hhd : e.header ≠ [] := by
    rw [hhdr]
    exact List.cons_ne_nil _ _
  have hcolsid : assocGet (headerMap e) "schedule_id" = some 0 := by
    unfold headerMap
    rw [hhdr]
    exact assocGet_mergeHeader_head [] "schedule_id" hrest (by decide) hsidr
  have hmemo2 : memoLenPositive (headerMap e) = false :=
    memoLenPositive_no_length_col e [] rfl hlencol
  have hcolsid2 : assocGet (mergeHeader (headerMap e) (enumPairsFrom 0 e.header))
      "schedule_id" = some 0 := by
    rw [hhdr]
    exact assocGet_mergeHeader_head (headerMap e) "schedule_id" hrest (by decide) hsidr
  have hjlt : (0 : Int).toNat < e.header.length := by
    rw [hhdr]
    simp
  have hfr1 := findRowIndexByID_fresh sc e w0 t0 trest "schedule_id"
    (jsParseIntVal (recordGet r "schedule_id")) 0 hne hvis hw0 htb ht0 hhd hcolsid
  simp only [Int.toNat_zero] at hfr1
  cases hidx : findIdxO e.rows (rowMatches 0 (jsParseIntVal (recordGet r "schedule_id"))) with
  | none =>
    have hjfi : jsFindIndex e.rows
        (rowMatches 0 (jsParseIntVal (recordGet r "schedule_id"))) = -1 := by
      unfold jsFindIndex
      rw [hidx]
    have hsave1 : saveRowData jp r none (resolvedSession sc w0.id t0 (headerMap e)) e =
        (.ok true, resolvedSession sc w0.id t0 (headerMap e),
         { e with rows := e.rows ++ [prepareDataForUpdate jp sc r] },
         [.reqRowPost (prepareDataForUpdate jp sc r)]) :=
      saveRowData_post jp r (resolvedSession sc w0.id t0 (headerMap e)) e w0.id t0
        rfl hw0 rfl ht0 hpd14
    have hcall1 : createOrUpdateRows jp r (freshSession sc) e =
        (.ok true, resolvedSession sc w0.id t0 (headerMap e),
         { e with rows := e.rows ++ [prepareDataForUpdate jp sc r] },
         [.reqWorksheets, .reqTables, .reqColumns, .reqColumnValues (some 0),
          .reqRowPost (prepareDataForUpdate jp sc r)]) := by
      unfold createOrUpdateRows
      simp only [hfr1, hjfi]
      rw [if_neg (by decide : ¬((0 : Int) ≤ -1))]
      simp only [hsave1]
      rfl
    have hjfi2 : jsFindIndex
        ({ e with rows := e.rows ++ [prepareDataForUpdate jp sc r] } : RemoteEnv).rows
        (rowMatches 0 (jsParseIntVal (recordGet r "schedule_id"))) = (e.rows.length : Int) := by
      show jsFindIndex (e.rows ++ [prepareDataForUpdate jp sc r]) _ = _
      unfold jsFindIndex
      rw [findIdxO_append_singleton _ _ _ hidx hmatchpd]
    have hfr2 : findRowIndexByID "schedule_id" (jsParseIntVal (recordGet r "schedule_id"))
        (resolvedSession sc w0.id t0 (headerMap e))
        ({ e with rows := e.rows ++ [prepareDataForUpdate jp sc r] }) =
        (.ok (e.rows.length : Int),
         resolvedSession sc w0.id t0 (mergeHeader (headerMap e) (enumPairsFrom 0 e.header)),
         { e with rows := e.rows ++ [prepareDataForUpdate jp sc r] },
         [.reqColumns, .reqColumnValues (some 0)]) := by
      have h := findRowIndexByID_resolved (resolvedSession sc w0.id t0 (headerMap e))
        ({ e with rows := e.rows ++ [prepareDataForUpdate jp sc r] }) w0.id t0
        "schedule_id" (jsParseIntVal (recordGet r "schedule_id")) 0
        rfl hw0 rfl ht0 hmemo2 hhd hcolsid2 (by decide) hjlt
      simp only [Int.toNat_zero] at h
      rw [hjfi2] at h
      exact h
    have hsave2 : saveRowData jp r (some (e.rows.length : Int))
        (resolvedSession sc w0.id t0 (mergeHeader (headerMap e) (enumPairsFrom 0 e.header)))
        ({ e with rows := e.rows ++ [prepareDataForUpdate jp sc r] }) =
        (.ok true,
         resolvedSession sc w0.id t0 (mergeHeader (headerMap e) (enumPairsFrom 0 e.header)),
         { e with rows := ((e.rows ++ [prepareDataForUpdate jp sc r]).set e.rows.length
            (prepareDataForUpdate jp sc r)) },
         [.reqRowPatch (e.rows.length : Int) (prepareDataForUpdate jp sc r)]) :=
      saveRowData_patch jp r _ _ w0.id t0 (e.rows.length : Int) rfl hw0 rfl ht0 hpd14
        (by omega)
        (show e.rows.length < (e.rows ++ [prepareDataForUpdate jp sc r]).length by simp)
    have hcall2 : createOrUpdateRows jp r (resolvedSession sc w0.id t0 (headerMap e))
        ({ e with rows := e.rows ++ [prepareDataForUpdate jp sc r] }) =
        (.ok true,
         resolvedSession sc w0.id t0 (mergeHeader (headerMap e) (enumPairsFrom 0 e.header)),
         { e with rows := ((e.rows ++ [prepareDataForUpdate jp sc r]).set e.rows.length
            (prepareDataForUpdate jp sc r)) },
         [.reqColumns, .reqColumnValues (some 0),
          .reqRowPatch (e.rows.length : Int) (prepareDataForUpdate jp sc r)]) := by
      unfold createOrUpdateRows
      simp only [hfr2]
      rw [if_pos (show (0 : Int) ≤ (e.rows.length : Int) by omega)]
      simp only [hsave2]
      rfl
    refine ⟨resolvedSession sc w0.id t0 (headerMap e),
      { e with rows := e.rows ++ [prepareDataForUpdate jp sc r] }, _,
      resolvedSession sc w0.id t0 (mergeHeader (headerMap e) (enumPairsFrom 0 e.header)),
      { e with rows := ((e.rows ++ [prepareDataForUpdate jp sc r]).set e.rows.length
        (prepareDataForUpdate jp sc r)) }, _,
      hcall1, hcall2, ?_, ⟨(e.rows.length : Int), by simp⟩⟩
    rw [set_append_length]
  | some k =>
    have hklt : k < e.rows.length := findIdxO_some_lt _ _ k hidx
    have hjfi : jsFindIndex e.rows
        (rowMatches 0 (jsParseIntVal (recordGet r "schedule_id"))) = (k : Int) := by
      unfold jsFindIndex
      rw [hidx]
    have hsave1 : saveRowData jp r (some (k : Int))
        (resolvedSession sc w0.id t0 (headerMap e)) e =
        (.ok true, resolvedSession sc w0.id t0 (headerMap e),
         { e with rows := e.rows.set k (prepareDataForUpdate jp sc r) },
         [.reqRowPatch (k : Int) (prepareDataForUpdate jp sc r)]) :=
      saveRowData_patch jp r _ _ w0.id t0 (k : Int) rfl hw0 rfl ht0 hpd14
        (by omega) (show k < e.rows.length from hklt)
    have hcall1 : createOrUpdateRows jp r (freshSession sc) e =
        (.ok true, resolvedSession sc w0.id t0 (headerMap e),
         { e with rows := e.rows.set k (prepareDataForUpdate jp sc r) },
         [.reqWorksheets, .reqTables, .reqColumns, .reqColumnValues (some 0),
          .reqRowPatch (k : Int) (prepareDataForUpdate jp sc r)]) := by
      unfold createOrUpdateRows
      simp only [hfr1, hjfi]
      rw [if_pos (show (0 : Int) ≤ (k : Int) by omega)]
      simp only [hsave1]
      rfl
    have hjfi2 : jsFindIndex
        ({ e with rows := e.rows.set k (prepareDataForUpdate jp sc r) } : RemoteEnv).rows
        (rowMatches 0 (jsParseIntVal (recordGet r "schedule_id"))) = (k : Int) := by
      show jsFindIndex (e.rows.set k (prepareDataForUpdate jp sc r)) _ = _
      unfold jsFindIndex
      rw [findIdxO_set _ _ k _ hidx hmatchpd]
    have hfr2 : findRowIndexByID "schedule_id" (jsParseIntVal (recordGet r "schedule_id"))
        (resolvedSession sc w0.id t0 (headerMap e))
        ({ e with rows := e.rows.set k (prepareDataForUpdate jp sc r) }) =
        (.ok (k : Int),
         resolvedSession sc w0.id t0 (mergeHeader (headerMap e) (enumPairsFrom 0 e.header)),
         { e with rows := e.rows.set k (prepareDataForUpdate jp sc r) },
         [.reqColumns, .reqColumnValues (some 0)]) := by
      have h := findRowIndexByID_resolved (resolvedSession sc w0.id t0 (headerMap e))
        ({ e with rows := e.rows.set k (prepareDataForUpdate jp sc r) }) w0.id t0
        "schedule_id" (jsParseIntVal (recordGet r "schedule_id")) 0
        rfl hw0 rfl ht0 hmemo2 hhd hcolsid2 (by decide) hjlt
      simp only [Int.toNat_zero] at h
      rw [hjfi2] at h
      exact h
    have hsave2 : saveRowData jp r (some (k : Int))
        (resolvedSession sc w0.id t0 (mergeHeader (headerMap e) (enumPairsFrom 0 e.header)))
        ({ e with rows := e.rows.set k (prepareDataForUpdate jp sc r) }) =
        (.ok true,
         resolvedSession sc w0.id t0 (mergeHeader (headerMap e) (enumPairsFrom 0 e.header)),
         { e with rows := ((e.rows.set k (prepareDataForUpdate jp sc r)).set k
            (prepareDataForUpdate jp sc r)) },
         [.reqRowPatch (k : Int) (prepareDataForUpdate jp sc r)]) :=
      saveRowData_patch jp r _ _ w0.id t0 (k : Int) rfl hw0 rfl ht0 hpd14
        (by omega)
        (show k < (e.rows.set k (prepareDataForUpdate jp sc r)).length by
          rw [List.length_set]
          exact hklt)
    have hcall2 : createOrUpdateRows jp r (resolvedSession sc w0.id t0 (headerMap e))
        ({ e with rows := e.rows.set k (prepareDataForUpdate jp sc r) }) =
        (.ok true,
         resolvedSession sc w0.id t0 (mergeHeader (headerMap e) (enumPairsFrom 0 e.header)),
         { e with rows := ((e.rows.set k (prepareDataForUpdate jp sc r)).set k
            (prepareDataForUpdate jp sc r)) },
         [.reqColumns, .reqColumnValues (some 0),
          .reqRowPatch (k : Int) (prepareDataForUpdate jp sc r)]) := by
      unfold createOrUpdateRows
      simp only [hfr2]
      rw [if_pos (show (0 : Int) ≤ (k : Int) by omega)]
      simp only [hsave2]
      rfl
    refine ⟨resolvedSession sc w0.id t0 (headerMap e),
      { e with rows := e.rows.set k (prepareDataForUpdate jp sc r) }, _,
      resolvedSession sc w0.id t0 (mergeHeader (headerMap e) (enumPairsFrom 0 e.header)),
      { e with rows := ((e.rows.set k (prepareDataForUpdate jp sc r)).set k
        (prepareDataForUpdate jp sc r)) }, _,
      hcall1, hcall2, ?_, ⟨(k : Int), by simp⟩⟩
    rw [List.set_set]

/-- Claim C2 witness: on the aligned 14-column table, upserting the full
record twice from a fresh session appends it once and then patches the
same row with the same vector, leaving the table unchanged. -/
theorem c2_witness :
    ∃ s1 e1 tr1 s2 e2 tr2,
      createOrUpdateRows jpNone recFull (freshSession (some "AE")) envAligned =
        (.ok true, s1, e1, tr1) ∧
      createOrUpdateRows jpNone recFull s1 e1 = (.ok true, s2, e2, tr2) ∧
      e2 = e1 ∧
      (∃ i : Int, Request.reqRowPatch i
        (prepareDataForUpdate jpNone (some "AE") recFull) ∈ tr2) :=
  c2_upsert_idempotent jpNone (some "AE") envAligned recFull ⟨"ws1", "Visible"⟩ "tbl1" []
    [ "rule_id", "rule_name", "coupon_type", "description_en", "description_ar",
      "short_terms_and_conditions_en", "short_terms_and_conditions_ar", "url_key",
      "channel_web", "channel_app", "start_date", "end_date", "status" ] 42
    (by decide) (by decide) (by decide) rfl (by decide) rfl (by decide) (by decide)
    (by decide) (by decide)

end SpSync
